import Mathlib

/-!
Shallow embedding of the pricing core of the letter-quotation application.

Python floats are modelled as exact rationals (ℚ): every constant appearing
in the source is an exactly representable decimal, so the rational model is
the intended real-number semantics of the code; the floating-point claims
carry a 1e-9 tolerance which exact equality implies.
Python ints are modelled as ℕ or ℤ as appropriate; Python dicts returned by
the calculation functions are modelled as structures with one field per key.
-/

namespace LetterQuote

/-- The material_info dictionary passed to calculate_costs; only its "rate"
key is read by the source. -/
structure MaterialInfo where
  rate : ℚ
deriving DecidableEq

/-- The dictionary returned by calculate_costs in
app/utils/calculations.py (keys material_cost, finish_cost, options_cost,
subtotal, tax, total). -/
structure CostBreakdown where
  material_cost : ℚ
  finish_cost : ℚ
  options_cost : ℚ
  subtotal : ℚ
  tax : ℚ
  total : ℚ
deriving DecidableEq

/-- The finish_multipliers dictionary of calculate_costs. -/
def finishMultipliers : List (String × ℚ) :=
  [("Standard", 1.0), ("Painted", 1.25), ("High Gloss", 1.35), ("Matte", 1.20)]

/-- dict.get key default: first binding of the key, or the default. -/
def lookupDefault (table : List (String × ℚ)) (key : String) (dflt : ℚ) : ℚ :=
  match table.find? (fun p => p.1 == key) with
  | some p => p.2
  | none => dflt

/-- calculate_costs from app/utils/calculations.py, line for line.
quantity is the total number of letters passed by the caller. -/
def calculate_costs (material_info : MaterialInfo) (height width depth : ℚ)
    (quantity : ℕ) (finish : String)
    (led_lighting mounting_hardware installation : Bool) : CostBreakdown :=
  let volume := height * width * depth
  let area := height * width
  let material_cost := volume * material_info.rate
  let finish_multiplier := lookupDefault finishMultipliers finish 1.0
  let finish_cost := material_cost * (finish_multiplier - 1)
  let options_cost : ℚ := 0
  let options_cost := if led_lighting then options_cost + area * 15 * 1.2 else options_cost
  let options_cost := if mounting_hardware then options_cost + volume * 2 else options_cost
  let options_cost := if installation then options_cost + area * 5 else options_cost
  let per_letter_cost := material_cost + finish_cost
  let options_total := options_cost * (quantity : ℚ)
  let subtotal := per_letter_cost * (quantity : ℚ) + options_total
  let tax := subtotal * 0.1
  let total := subtotal + tax
  { material_cost := material_cost * (quantity : ℚ)
    finish_cost := finish_cost * (quantity : ℚ)
    options_cost := options_total
    subtotal := subtotal
    tax := tax
    total := total }

/-- The dictionary returned by calculate_bulk_discount. -/
structure DiscountInfo where
  discount_percentage : ℕ
  discount : ℚ
  subtotal_after_discount : ℚ
deriving DecidableEq

/-- The discount_tiers list of calculate_bulk_discount. -/
def discount_tiers : List (ℕ × ℕ) := [(100, 5), (250, 10), (500, 15), (1000, 20)]

/-- The tier-selection loop of calculate_bulk_discount: iterate the tiers in
order, the last tier whose threshold is met overwrites the percentage. -/
def findDiscountPercentage (quantity : ℕ) : ℕ :=
  List.foldl (fun acc t => if quantity ≥ t.1 then t.2 else acc) 0 discount_tiers

/-- calculate_bulk_discount from app/utils/calculations.py. -/
def calculate_bulk_discount (subtotal : ℚ) (quantity : ℕ) : DiscountInfo :=
  let discount_percentage := findDiscountPercentage quantity
  let discount : ℚ :=
    if discount_percentage > 0 then subtotal * ((discount_percentage : ℚ) / 100) else 0
  { discount_percentage := discount_percentage
    discount := discount
    subtotal_after_discount := subtotal - discount }

/-- calculate_delivery_time from app/utils/calculations.py. -/
def calculate_delivery_time (quantity : ℕ) (volume : ℚ)
    (led_lighting installation : Bool) : ℕ :=
  let base_days : ℕ :=
    if quantity ≤ 5 then 3
    else if quantity ≤ 20 then 5
    else if quantity ≤ 50 then 7
    else if quantity ≤ 100 then 10
    else 14
  let complexity_days : ℕ := 0
  let complexity_days :=
    if volume > 500 then complexity_days + 2
    else if volume > 200 then complexity_days + 1
    else complexity_days
  let complexity_days := if led_lighting then complexity_days + 2 else complexity_days
  let complexity_days := if installation then complexity_days + 1 else complexity_days
  base_days + complexity_days

/-! ### Validation (app/utils/validation.py)

Text is modelled as `List Char`.  Python's `str.strip()` and the regex
classes `\w` and `\s` are modelled over ASCII (the only characters the
application's inputs use); the character sets are fixed predicates, which
is all the claims depend on. -/

/-- Whitespace as recognised by Python's str.strip() and the regex class
backslash-s, restricted to ASCII. -/
def isSpaceChar (c : Char) : Bool :=
  c = ' ' || c = '\t' || c = '\n' || c = '\r' || c = '\x0b' || c = '\x0c'

/-- The regex word class (letters, digits, underscore), restricted to ASCII. -/
def isWordChar (c : Char) : Bool :=
  c.isAlpha || c.isDigit || c = '_'

/-- The punctuation explicitly allow-listed by the second regex of
sanitize_text_input. -/
def allowedPunct : List Char :=
  ['.', ',', '!', '?', '@', '#', '$', '%', '^', '&', '*', '(', ')', '-']

/-- A character survives the allow-list regex of sanitize_text_input. -/
def isAllowedChar (c : Char) : Bool :=
  isWordChar c || isSpaceChar c || allowedPunct.contains c

/-- str.lstrip(): drop leading whitespace. -/
def lstrip (l : List Char) : List Char := l.dropWhile isSpaceChar

/-- str.strip(): drop leading and trailing whitespace. -/
def strip (l : List Char) : List Char :=
  (lstrip (lstrip l).reverse).reverse

/-- Drop everything up to and including the first closing angle bracket,
returning none when there is none; the returned suffix is strictly
shorter (the length bound drives the termination of stripTags). -/
def dropThroughGt : (l : List Char) → Option { s : List Char // s.length < l.length }
  | [] => none
  | c :: rest =>
    if c = '>' then some ⟨rest, by simp⟩
    else
      match dropThroughGt rest with
      | some ⟨s, h⟩ => some ⟨s, by simp only [List.length_cons]; omega⟩
      | none => none

/-- The first substitution of sanitize_text_input: re.sub of the pattern
"open bracket, any non-close characters, close bracket" by the empty
string.  Scanning left to right, an opening angle bracket that is followed
by a closing one starts a match running to the first such closing bracket
(the starred class excludes the closing bracket, so the greedy match ends
at the first one); an opening bracket with no later closing bracket
matches nothing and is kept. -/
def stripTags : List Char → List Char
  | [] => []
  | c :: rest =>
    if c = '<' then
      match dropThroughGt rest with
      | some ⟨after, _⟩ => stripTags after
      | none => c :: stripTags rest
    else c :: stripTags rest
termination_by l => l.length
decreasing_by
  · simp only [List.length_cons]; omega
  · simp
  · simp

/-- sanitize_text_input from app/utils/validation.py: strip tag-like
sequences, keep only allow-listed characters, trim whitespace. -/
def sanitize_text_input (text : List Char) : List Char :=
  strip ((stripTags text).filter isAllowedChar)

/-- validate_inputs from app/utils/validation.py. -/
def validate_inputs (height width depth : ℚ) (letters : List Char) : Bool :=
  let dimension_valid :=
    decide (height > 0) && decide (width > 0) && decide (depth > 0) &&
    decide (height ≤ 120) && decide (width ≤ 120) && decide (depth ≤ 24)
  let letters_valid := decide (strip letters ≠ [])
  dimension_valid && letters_valid

/-! ### Quotation record (app/models/quotation.py)

`datetime` values are opaque to every claim (from_dict never reads
created_at back); they are modelled as integers.  The default factories
datetime.now() and the timestamp-derived quote_id are environmental inputs
and appear as explicit parameters of from_dict. -/

/-- QuotationCosts dataclass. -/
structure QuotationCosts where
  material_cost : ℚ
  finish_cost : ℚ
  options_cost : ℚ
  subtotal : ℚ
  tax : ℚ
  total : ℚ
  discount : ℚ := 0
  discount_percentage : ℤ := 0
deriving DecidableEq

/-- QuotationOptions dataclass. -/
structure QuotationOptions where
  led_lighting : Bool := false
  mounting_hardware : Bool := false
  installation : Bool := false
deriving DecidableEq

/-- ColorInfo dataclass. -/
structure ColorInfo where
  name : String
  hex : String
deriving DecidableEq

/-- Quotation dataclass.  letter_colors is a Python dict keyed by strings;
modelled as an association list in insertion order. -/
structure Quotation where
  letters : String
  material : String
  dimensions : String
  quantity : ℤ
  total_letters : ℤ
  finish : String
  volume_per_letter : ℚ
  options : QuotationOptions
  costs : QuotationCosts
  multi_color : Bool := false
  color : Option String := none
  color_hex : Option String := none
  letter_colors : List (String × ColorInfo) := []
  font : String := "default"
  estimated_delivery_days : ℤ := 7
  created_at : ℤ
  quote_id : String
deriving DecidableEq

/-- The costs sub-dictionary of a portable (serialized) quotation; a `none`
field models an absent key, read back through dict.get with a default. -/
structure PortableCosts where
  material_cost : Option ℚ := none
  finish_cost : Option ℚ := none
  options_cost : Option ℚ := none
  subtotal : Option ℚ := none
  tax : Option ℚ := none
  total : Option ℚ := none
  discount : Option ℚ := none
  discount_percentage : Option ℤ := none
deriving DecidableEq

/-- The options sub-dictionary of a portable quotation (keys
"LED Lighting", "Mounting Hardware", "Installation"). -/
structure PortableOptions where
  led_lighting : Option Bool := none
  mounting_hardware : Option Bool := none
  installation : Option Bool := none
deriving DecidableEq

/-- A letter_colors entry of a portable quotation: an arbitrary
sub-dictionary in which the name and hex keys may each be absent
(from_dict checks for their presence). -/
structure PortableColorInfo where
  name : Option String := none
  hex : Option String := none
deriving DecidableEq

/-- The dictionary form of a Quotation as produced by to_dict and consumed
by from_dict; a `none` field models an absent key.  The color and
color_hex values are themselves optional strings (Python None), so those
fields are doubly optional: outer layer = key presence, inner = value.
created_at is serialized as an isoformat string, abstracted here as the
underlying timestamp. -/
structure PortableForm where
  letters : Option String := none
  material : Option String := none
  dimensions : Option String := none
  quantity : Option ℤ := none
  total_letters : Option ℤ := none
  finish : Option String := none
  volume_per_letter : Option ℚ := none
  options : Option PortableOptions := none
  costs : Option PortableCosts := none
  multi_color : Option Bool := none
  color : Option (Option String) := none
  color_hex : Option (Option String) := none
  letter_colors : Option (List (String × PortableColorInfo)) := none
  font : Option String := none
  estimated_delivery_days : Option ℤ := none
  created_at : Option ℤ := none
  quote_id : Option String := none
deriving DecidableEq

/-- Quotation.from_dict.  now_created and now_quote_id are the values the
dataclass default factories produce at construction time (datetime.now()
and the timestamp-derived id); from_dict never reads those keys from the
dictionary, so the constructed record always carries fresh ones. -/
def Quotation.from_dict (data : PortableForm)
    (now_created : ℤ) (now_quote_id : String) : Quotation :=
  let costs_data := data.costs.getD {}
  let costs : QuotationCosts :=
    { material_cost := costs_data.material_cost.getD 0
      finish_cost := costs_data.finish_cost.getD 0
      options_cost := costs_data.options_cost.getD 0
      subtotal := costs_data.subtotal.getD 0
      tax := costs_data.tax.getD 0
      total := costs_data.total.getD 0
      discount := costs_data.discount.getD 0
      discount_percentage := costs_data.discount_percentage.getD 0 }
  let options_data := data.options.getD {}
  let options : QuotationOptions :=
    { led_lighting := options_data.led_lighting.getD false
      mounting_hardware := options_data.mounting_hardware.getD false
      installation := options_data.installation.getD false }
  let multi_color := data.multi_color.getD false
  let letter_colors : List (String × ColorInfo) :=
    if multi_color then
      match data.letter_colors with
      | some lcs =>
        lcs.filterMap (fun p =>
          match p.2.name, p.2.hex with
          | some n, some h => some (p.1, ColorInfo.mk n h)
          | _, _ => none)
      | none => []
    else []
  { letters := data.letters.getD ""
    material := data.material.getD ""
    dimensions := data.dimensions.getD ""
    quantity := data.quantity.getD 0
    total_letters := data.total_letters.getD 0
    finish := data.finish.getD ""
    volume_per_letter := data.volume_per_letter.getD 0
    options := options
    costs := costs
    multi_color := multi_color
    color := (data.color.getD none)
    color_hex := (data.color_hex.getD none)
    letter_colors := letter_colors
    font := data.font.getD "default"
    estimated_delivery_days := data.estimated_delivery_days.getD 7
    created_at := now_created
    quote_id := now_quote_id }

/-- Quotation.to_dict: every key is written; letter_colors is written only
when multi_color is set. -/
def Quotation.to_dict (q : Quotation) : PortableForm :=
  { letters := some q.letters
    material := some q.material
    dimensions := some q.dimensions
    quantity := some q.quantity
    total_letters := some q.total_letters
    finish := some q.finish
    volume_per_letter := some q.volume_per_letter
    options := some
      { led_lighting := some q.options.led_lighting
        mounting_hardware := some q.options.mounting_hardware
        installation := some q.options.installation }
    costs := some
      { material_cost := some q.costs.material_cost
        finish_cost := some q.costs.finish_cost
        options_cost := some q.costs.options_cost
        subtotal := some q.costs.subtotal
        tax := some q.costs.tax
        total := some q.costs.total
        discount := some q.costs.discount
        discount_percentage := some q.costs.discount_percentage }
    multi_color := some q.multi_color
    color := some q.color
    color_hex := some q.color_hex
    letter_colors :=
      if q.multi_color then
        some (q.letter_colors.map (fun p =>
          (p.1, PortableColorInfo.mk (some p.2.name) (some p.2.hex))))
      else none
    font := some q.font
    estimated_delivery_days := some q.estimated_delivery_days
    created_at := some q.created_at
    quote_id := some q.quote_id }

/-- Quotation.apply_bulk_discount, written as explicit state passing: the
Python method mutates self.costs in place; the returned record is the
post-state. -/
def Quotation.apply_bulk_discount (q : Quotation) : Quotation :=
  let discount_percentage : ℤ :=
    if q.quantity ≥ 10 ∨ q.total_letters ≥ 100 then 10
    else if q.quantity ≥ 5 ∨ q.total_letters ≥ 50 then 5
    else 0
  if discount_percentage > 0 then
    let discount_amount := q.costs.subtotal * ((discount_percentage : ℚ) / 100)
    let discounted_subtotal := q.costs.subtotal - discount_amount
    let tax := discounted_subtotal * 0.1
    { q with costs :=
      { q.costs with
        discount := discount_amount
        discount_percentage := discount_percentage
        tax := tax
        total := discounted_subtotal + tax } }
  else q

/-! ### The pricing run of the submit branch
(app/components/quotation_form.py): calculate_costs, then, when the total
unit count reaches 50, the costs dictionary is updated in place with the
three keys of calculate_bulk_discount; tax and total are not recomputed.
Absent discount keys are modelled by the values the readers default them
to (discount 0, percentage 0) and by an unchanged subtotal. -/

/-- The costs dictionary a pricing run attaches to the quotation. -/
structure RunCosts where
  material_cost : ℚ
  finish_cost : ℚ
  options_cost : ℚ
  subtotal : ℚ
  tax : ℚ
  total : ℚ
  discount_percentage : ℕ
  discount : ℚ
  subtotal_after_discount : ℚ
deriving DecidableEq

/-- The cost computation of the submitted quotation form: the dict update
merges the discount keys but leaves tax and total as computed on the
pre-discount subtotal. -/
def pipeline_costs (material_info : MaterialInfo) (height width depth : ℚ)
    (quantity num_letters : ℕ) (finish : String)
    (led_lighting mounting_hardware installation : Bool) : RunCosts :=
  let costs := calculate_costs material_info height width depth
    (quantity * num_letters) finish led_lighting mounting_hardware installation
  if quantity * num_letters ≥ 50 then
    let discount_info := calculate_bulk_discount costs.subtotal (quantity * num_letters)
    { material_cost := costs.material_cost
      finish_cost := costs.finish_cost
      options_cost := costs.options_cost
      subtotal := costs.subtotal
      tax := costs.tax
      total := costs.total
      discount_percentage := discount_info.discount_percentage
      discount := discount_info.discount
      subtotal_after_discount := discount_info.subtotal_after_discount }
  else
    { material_cost := costs.material_cost
      finish_cost := costs.finish_cost
      options_cost := costs.options_cost
      subtotal := costs.subtotal
      tax := costs.tax
      total := costs.total
      discount_percentage := 0
      discount := 0
      subtotal_after_discount := costs.subtotal }

/-- A concrete constructed Quotation for order quantity 10 (ten sets of a
one-letter text), with the costs calculate_costs produces for a unit cube
at rate 10. -/
def exampleQuotation : Quotation :=
  { letters := "A", material := "Wood", dimensions := "1\" x 1\" x 1\""
    quantity := 10, total_letters := 10, finish := "Standard"
    volume_per_letter := 1, options := {}
    costs := { material_cost := 100, finish_cost := 0, options_cost := 0,
               subtotal := 100, tax := 10, total := 110 }
    created_at := 0, quote_id := "20240101000000" }

/-- A concrete constructed Quotation below every bulk-discount tier. -/
def smallQuotation : Quotation :=
  { letters := "B", material := "Metal", dimensions := "2\" x 2\" x 1\""
    quantity := 1, total_letters := 1, finish := "Matte"
    volume_per_letter := 4, options := {}
    costs := { material_cost := 20, finish_cost := 4, options_cost := 0,
               subtotal := 24, tax := 2.4, total := 26.4 }
    created_at := 5, quote_id := "20240102000000" }

/-- A concrete single-color Quotation that nevertheless carries a
letter_colors entry (the dataclass places no constraint forbidding it). -/
def colorQuotation : Quotation :=
  { letters := "C", material := "Wood", dimensions := "1\" x 1\" x 1\""
    quantity := 1, total_letters := 1, finish := "Standard"
    volume_per_letter := 1, options := {}
    costs := { material_cost := 10, finish_cost := 0, options_cost := 0,
               subtotal := 10, tax := 1, total := 11 }
    multi_color := false
    color := some "Red", color_hex := some "#FF0000"
    letter_colors := [("0", { name := "Red", hex := "#FF0000" })]
    created_at := 0, quote_id := "20240103000000" }

/-- A concrete multi-color Quotation with a per-letter color map. -/
def multiColorQuotation : Quotation :=
  { letters := "AB", material := "Wood", dimensions := "1\" x 1\" x 1\""
    quantity := 1, total_letters := 2, finish := "Standard"
    volume_per_letter := 1, options := {}
    costs := { material_cost := 20, finish_cost := 0, options_cost := 0,
               subtotal := 20, tax := 2, total := 22 }
    multi_color := true
    letter_colors := [("0", { name := "Red", hex := "#FF0000" }),
                      ("1", { name := "Blue", hex := "#0000FF" })]
    created_at := 0, quote_id := "20240104000000" }

/-! ### Theorems -/

/-- Closed form of the tier-selection loop: the last tier of the ascending
table whose threshold is met wins. -/
theorem findDiscountPercentage_eq (u : ℕ) :
    findDiscountPercentage u =
      if 1000 ≤ u then 20 else if 500 ≤ u then 15 else if 250 ≤ u then 10
      else if 100 ≤ u then 5 else 0 := by
  simp only [findDiscountPercentage, discount_tiers, List.foldl_cons, List.foldl_nil, ge_iff_le]

/-- C2: for every subtotal and positive unit count, calculate_bulk_discount
returns the percentage of the highest qualifying tier of
{100: 5, 250: 10, 500: 15, 1000: 20} (last matching tier of the ascending
table wins), with amount = subtotal * percentage / 100 and adjusted
subtotal = subtotal - amount; 150 units give 5, 1000 units give 20, and
below 100 units the percentage and amount are 0 and the adjusted subtotal
is the input subtotal. -/
theorem claim_C2_bulk_discount (s : ℚ) (u : ℕ) (hu : 0 < u) :
    ((calculate_bulk_discount s u).discount_percentage =
      if 1000 ≤ u then 20 else if 500 ≤ u then 15 else if 250 ≤ u then 10
      else if 100 ≤ u then 5 else 0) ∧
    (calculate_bulk_discount s u).discount =
      s * ((calculate_bulk_discount s u).discount_percentage : ℚ) / 100 ∧
    (calculate_bulk_discount s u).subtotal_after_discount =
      s - (calculate_bulk_discount s u).discount ∧
    (calculate_bulk_discount s 150).discount_percentage = 5 ∧
    (calculate_bulk_discount s 1000).discount_percentage = 20 ∧
    (u < 100 →
      (calculate_bulk_discount s u).discount_percentage = 0 ∧
      (calculate_bulk_discount s u).discount = 0 ∧
      (calculate_bulk_discount s u).subtotal_after_discount = s) := by
  have hdisc : ∀ v : ℕ, (calculate_bulk_discount s v).discount =
      s * ((findDiscountPercentage v : ℚ)) / 100 := by
    intro v
    show (if findDiscountPercentage v > 0
        then s * ((findDiscountPercentage v : ℚ) / 100) else 0) =
      s * ((findDiscountPercentage v : ℚ)) / 100
    split_ifs with h
    · rw [mul_div_assoc]
    · have h0 : findDiscountPercentage v = 0 := by omega
      rw [h0]
      norm_num
  refine ⟨findDiscountPercentage_eq u, ?_, rfl, ?_, ?_, ?_⟩
  · exact hdisc u
  · rw [show (calculate_bulk_discount s 150).discount_percentage =
        findDiscountPercentage 150 from rfl, findDiscountPercentage_eq]
    norm_num
  · rw [show (calculate_bulk_discount s 1000).discount_percentage =
        findDiscountPercentage 1000 from rfl, findDiscountPercentage_eq]
    norm_num
  · intro hlt
    have h0 : findDiscountPercentage u = 0 := by
      rw [findDiscountPercentage_eq]
      split_ifs <;> omega
    refine ⟨h0, ?_, ?_⟩
    · rw [hdisc u, h0]
      norm_num
    · show s - (calculate_bulk_discount s u).discount = s
      rw [hdisc u, h0]
      norm_num

/-- Witness for C2 at subtotal 200 and 150 units. -/
theorem claim_C2_witness :
    (calculate_bulk_discount 200 150).discount_percentage = 5 ∧
    (calculate_bulk_discount 200 150).discount = 10 := by
  have h := claim_C2_bulk_discount 200 150 (by norm_num)
  refine ⟨h.2.2.2.1, ?_⟩
  rw [h.2.1, h.2.2.2.1]
  norm_num

/-- C9: for a fixed subtotal, the discount percentage is monotone in the
unit count. -/
theorem claim_C9_discount_monotone (s : ℚ) (u1 u2 : ℕ) (h1 : 0 < u1)
    (hle : u1 ≤ u2) :
    (calculate_bulk_discount s u1).discount_percentage ≤
      (calculate_bulk_discount s u2).discount_percentage := by
  show findDiscountPercentage u1 ≤ findDiscountPercentage u2
  rw [findDiscountPercentage_eq, findDiscountPercentage_eq]
  split_ifs <;> omega

/-- Witness for C9 at subtotal 100, 100 and 1000 units. -/
theorem claim_C9_witness :
    (calculate_bulk_discount 100 100).discount_percentage ≤
      (calculate_bulk_discount 100 1000).discount_percentage :=
  claim_C9_discount_monotone 100 100 1000 (by norm_num) (by norm_num)

/-- C7: for every positive unit count, calculate_delivery_time is exactly
the quantity-bracket base (≤5 gives 3, ≤20 gives 5, ≤50 gives 7, ≤100
gives 10, else 14) plus 2 days when volume exceeds 500 (else 1 when it
exceeds 200), plus 2 for LED lighting, plus 1 for installation, with no
cap; at 120 units, volume 600, LED and installation it returns 19. -/
theorem claim_C7_delivery (u : ℕ) (hu : 0 < u) (v : ℚ)
    (led inst : Bool) :
    (calculate_delivery_time u v led inst =
      (if u ≤ 5 then 3 else if u ≤ 20 then 5 else if u ≤ 50 then 7
       else if u ≤ 100 then 10 else 14)
      + (if v > 500 then 2 else if v > 200 then 1 else 0)
      + (if led then 2 else 0) + (if inst then 1 else 0)) ∧
    calculate_delivery_time 120 600 true true = 19 := by
  constructor
  · simp only [calculate_delivery_time]
    split_ifs <;> omega
  · norm_num [calculate_delivery_time]

/-- Witness for C7 at 120 units, volume 600, LED and installation. -/
theorem claim_C7_witness : calculate_delivery_time 120 600 true true = 19 :=
  (claim_C7_delivery 120 (by norm_num) 600 true true).2

/-- C6: validate_inputs accepts exactly the inputs with 0 < height ≤ 120,
0 < width ≤ 120, 0 < depth ≤ 24 and text that is non-empty after trimming
whitespace; the upper bounds themselves validate, while height 120.01 or
depth 0 do not. -/
theorem claim_C6_validate :
    (∀ (h w d : ℚ) (t : List Char),
      validate_inputs h w d t = true ↔
        (0 < h ∧ h ≤ 120 ∧ 0 < w ∧ w ≤ 120 ∧ 0 < d ∧ d ≤ 24 ∧
         strip t ≠ [])) ∧
    validate_inputs 120 120 24 ['A'] = true ∧
    validate_inputs 120.01 120 24 ['A'] = false ∧
    validate_inputs 120 120 0 ['A'] = false := by
  have hiff : ∀ (h w d : ℚ) (t : List Char),
      validate_inputs h w d t = true ↔
        (0 < h ∧ h ≤ 120 ∧ 0 < w ∧ w ≤ 120 ∧ 0 < d ∧ d ≤ 24 ∧
         strip t ≠ []) := by
    intro h w d t
    simp only [validate_inputs, Bool.and_eq_true, decide_eq_true_eq]
    tauto
  have hA : strip ['A'] ≠ [] := by decide
  refine ⟨hiff, ?_, ?_, ?_⟩
  · rw [hiff]
    refine ⟨by norm_num, by norm_num, by norm_num, by norm_num, by norm_num,
      by norm_num, hA⟩
  · rw [Bool.eq_false_iff]
    intro hcontra
    have := (hiff 120.01 120 24 ['A']).mp hcontra
    have h1 : (120.01 : ℚ) ≤ 120 := this.2.1
    norm_num at h1
  · rw [Bool.eq_false_iff]
    intro hcontra
    have := (hiff 120 120 0 ['A']).mp hcontra
    have h1 : (0 : ℚ) < 0 := this.2.2.2.2.1
    norm_num at h1

/-- Witness for C6 at the upper dimension bounds. -/
theorem claim_C6_witness : validate_inputs 120 120 24 ['A'] = true :=
  claim_C6_validate.2.1

/-- C3: calculate_costs returns
subtotal = (material_cost_per_unit + finish_cost_per_unit) * total_units
+ options_cost_per_unit * total_units, with options_cost_per_unit the sum
of the LED (area * 15 * 1.2), mounting (volume * 2) and installation
(area * 5) terms; at rate 0.030, 12 x 8 x 2, 3 units, Standard finish and
no options it yields subtotal 17.28, tax 1.728, total 19.008. -/
theorem claim_C3_subtotal (mi : MaterialInfo) (h w d : ℚ) (u : ℕ)
    (hu : 0 < u) (finish : String) (led mnt inst : Bool) :
    ((calculate_costs mi h w d u finish led mnt inst).subtotal =
      (h * w * d * mi.rate
        + h * w * d * mi.rate * (lookupDefault finishMultipliers finish 1.0 - 1))
        * (u : ℚ)
      + ((if led then h * w * 15 * 1.2 else 0)
         + (if mnt then h * w * d * 2 else 0)
         + (if inst then h * w * 5 else 0)) * (u : ℚ)) ∧
    (calculate_costs ⟨0.030⟩ 12 8 2 3 "Standard" false false false).subtotal
      = 17.28 ∧
    (calculate_costs ⟨0.030⟩ 12 8 2 3 "Standard" false false false).tax
      = 1.728 ∧
    (calculate_costs ⟨0.030⟩ 12 8 2 3 "Standard" false false false).total
      = 19.008 := by
  refine ⟨?_, ?_, ?_, ?_⟩
  · simp only [calculate_costs]
    split_ifs <;> ring
  · norm_num [calculate_costs, lookupDefault, finishMultipliers]
  · norm_num [calculate_costs, lookupDefault, finishMultipliers]
  · norm_num [calculate_costs, lookupDefault, finishMultipliers]

/-- Witness for C3 at the concrete scenario of the spec. -/
theorem claim_C3_witness :
    (calculate_costs ⟨0.030⟩ 12 8 2 3 "Standard" false false false).subtotal
      = 17.28 :=
  (claim_C3_subtotal ⟨0.030⟩ 12 8 2 3 (by norm_num) "Standard"
    false false false).2.1

/-- C8: the Standard finish contributes no finish cost, and a finish name
absent from the multiplier table silently falls back to multiplier 1.0,
also contributing no finish cost, without error. -/
theorem claim_C8_finish_default (mi : MaterialInfo) (h w d : ℚ) (u : ℕ)
    (led mnt inst : Bool) (f : String)
    (hf : f ∉ finishMultipliers.map Prod.fst) :
    (calculate_costs mi h w d u "Standard" led mnt inst).finish_cost = 0 ∧
    (calculate_costs mi h w d u f led mnt inst).finish_cost = 0 := by
  have hstd : lookupDefault finishMultipliers "Standard" 1.0 = 1.0 := by
    norm_num [lookupDefault, finishMultipliers]
  have hnone : finishMultipliers.find? (fun p => p.1 == f) = none := by
    rw [List.find?_eq_none]
    intro p hp
    simp only [finishMultipliers, List.map_cons, List.map_nil,
      List.mem_cons, List.not_mem_nil, or_false] at hf
    push_neg at hf
    simp only [finishMultipliers, List.mem_cons, List.not_mem_nil,
      or_false] at hp
    rcases hp with h1 | h1 | h1 | h1 <;> subst h1 <;>
        simp only [beq_iff_eq] <;> intro hcontra
    · exact hf.1 hcontra.symm
    · exact hf.2.1 hcontra.symm
    · exact hf.2.2.1 hcontra.symm
    · exact hf.2.2.2 hcontra.symm
  have hfdef : lookupDefault finishMultipliers f 1.0 = 1.0 := by
    rw [lookupDefault, hnone]
  constructor
  · show h * w * d * mi.rate
      * (lookupDefault finishMultipliers "Standard" 1.0 - 1) * (u : ℚ) = 0
    rw [hstd]
    norm_num
  · show h * w * d * mi.rate
      * (lookupDefault finishMultipliers f 1.0 - 1) * (u : ℚ) = 0
    rw [hfdef]
    norm_num

/-- Witness for C8 with the unknown finish name Chrome. -/
theorem claim_C8_witness :
    (calculate_costs ⟨1⟩ 2 3 4 5 "Chrome" true true true).finish_cost = 0 :=
  (claim_C8_finish_default ⟨1⟩ 2 3 4 5 true true true "Chrome"
    (by simp [finishMultipliers])).2

/-- Both branches of the pricing run carry the tax and total computed by
calculate_costs on the pre-discount subtotal. -/
theorem pipeline_costs_fields (mi : MaterialInfo) (h w d : ℚ)
    (q n : ℕ) (f : String) (led mnt inst : Bool) :
    (pipeline_costs mi h w d q n f led mnt inst).subtotal =
      (calculate_costs mi h w d (q * n) f led mnt inst).subtotal ∧
    (pipeline_costs mi h w d q n f led mnt inst).tax =
      (calculate_costs mi h w d (q * n) f led mnt inst).tax ∧
    (pipeline_costs mi h w d q n f led mnt inst).total =
      (calculate_costs mi h w d (q * n) f led mnt inst).total := by
  simp only [pipeline_costs]
  split <;> exact ⟨rfl, rfl, rfl⟩

/-- calculate_costs sets tax to a tenth of its own subtotal. -/
theorem calculate_costs_tax_def (mi : MaterialInfo) (h w d : ℚ) (u : ℕ)
    (f : String) (led mnt inst : Bool) :
    (calculate_costs mi h w d u f led mnt inst).tax =
      (calculate_costs mi h w d u f led mnt inst).subtotal * 0.1 := rfl

/-- calculate_costs sets total to subtotal plus tax. -/
theorem calculate_costs_total_def (mi : MaterialInfo) (h w d : ℚ) (u : ℕ)
    (f : String) (led mnt inst : Bool) :
    (calculate_costs mi h w d u f led mnt inst).total =
      (calculate_costs mi h w d u f led mnt inst).subtotal
        + (calculate_costs mi h w d u f led mnt inst).tax := rfl

/-- C1 counterexample: a valid pricing run (rate 1, a 1 x 1 x 1 letter,
100 sets of a one-letter text, Standard finish, no options) reaching the
5% tier records discount 5 on subtotal 100 yet keeps tax 10, which
differs from (subtotal - discount) * 0.10 = 9.5 by far more than the 1e-9
tolerance. -/
theorem claim_C1_counterexample :
    validate_inputs 1 1 1 ['A'] = true ∧
    (pipeline_costs ⟨1⟩ 1 1 1 100 1 "Standard" false false false).subtotal
      = 100 ∧
    (pipeline_costs ⟨1⟩ 1 1 1 100 1 "Standard" false false false).discount
      = 5 ∧
    (pipeline_costs ⟨1⟩ 1 1 1 100 1 "Standard" false false false).tax
      = 10 ∧
    ¬ (|(pipeline_costs ⟨1⟩ 1 1 1 100 1 "Standard" false false false).tax
        - ((pipeline_costs ⟨1⟩ 1 1 1 100 1 "Standard" false false false).subtotal
           - (pipeline_costs ⟨1⟩ 1 1 1 100 1 "Standard" false false false).discount)
          * 0.1|
        ≤ 1 / 1000000000) := by
  have hrun : pipeline_costs ⟨1⟩ 1 1 1 100 1 "Standard" false false false =
      { material_cost := 100, finish_cost := 0, options_cost := 0,
        subtotal := 100, tax := 10, total := 110,
        discount_percentage := 5, discount := 5,
        subtotal_after_discount := 95 } := by
    norm_num [pipeline_costs, calculate_costs, calculate_bulk_discount,
      findDiscountPercentage, discount_tiers, lookupDefault, finishMultipliers]
  rw [hrun]
  refine ⟨by decide, by norm_num, by norm_num, by norm_num, ?_⟩
  norm_num
  rw [abs_of_pos] <;> norm_num

/-- C1 as amended: every pricing run computes tax and total on the
pre-discount subtotal, tax = subtotal * 0.10 and total = subtotal * 1.10;
the claimed identity tax = (subtotal - discount) * 0.10 therefore holds
exactly when the recorded discount amount is zero. -/
theorem claim_C1_amended (mi : MaterialInfo) (h w d : ℚ) (q n : ℕ)
    (f : String) (led mnt inst : Bool) :
    (pipeline_costs mi h w d q n f led mnt inst).tax =
      (pipeline_costs mi h w d q n f led mnt inst).subtotal * 0.1 ∧
    (pipeline_costs mi h w d q n f led mnt inst).total =
      (pipeline_costs mi h w d q n f led mnt inst).subtotal * 1.1 ∧
    ((pipeline_costs mi h w d q n f led mnt inst).discount = 0 →
      (pipeline_costs mi h w d q n f led mnt inst).tax =
        ((pipeline_costs mi h w d q n f led mnt inst).subtotal
          - (pipeline_costs mi h w d q n f led mnt inst).discount) * 0.1) := by
  obtain ⟨hs, ht, htot⟩ := pipeline_costs_fields mi h w d q n f led mnt inst
  have h1 : (pipeline_costs mi h w d q n f led mnt inst).tax =
      (pipeline_costs mi h w d q n f led mnt inst).subtotal * 0.1 := by
    rw [hs, ht, calculate_costs_tax_def]
  refine ⟨h1, ?_, ?_⟩
  · rw [hs, htot, calculate_costs_total_def, calculate_costs_tax_def]
    have : ∀ s : ℚ, s + s * 0.1 = s * 1.1 := by
      intro s
      rw [show (1.1 : ℚ) = 1 + 0.1 by norm_num]
      ring
    exact this _
  · intro hd
    rw [h1, hd, sub_zero]

/-- Witness for C1 as amended: a run below every discount tier has zero
discount and its tax then equals (subtotal - discount) * 0.10. -/
theorem claim_C1_witness :
    (pipeline_costs ⟨1⟩ 1 1 1 1 1 "Standard" false false false).discount
      = 0 ∧
    (pipeline_costs ⟨1⟩ 1 1 1 1 1 "Standard" false false false).tax =
      ((pipeline_costs ⟨1⟩ 1 1 1 1 1 "Standard" false false false).subtotal
        - (pipeline_costs ⟨1⟩ 1 1 1 1 1 "Standard" false false false).discount)
        * 0.1 := by
  have hd : (pipeline_costs ⟨1⟩ 1 1 1 1 1 "Standard" false false false).discount
      = 0 := by
    norm_num [pipeline_costs, calculate_costs, lookupDefault, finishMultipliers]
  exact ⟨hd, (claim_C1_amended ⟨1⟩ 1 1 1 1 1 "Standard" false false false).2.2 hd⟩

/-- C4 counterexample: apply_bulk_discount mutates an existing Quotation
in place: on a quotation with quantity 10 it changes the record, raising
the stored discount from 0 to 10 and rewriting tax and total. -/
theorem claim_C4_counterexample :
    Quotation.apply_bulk_discount exampleQuotation ≠ exampleQuotation ∧
    exampleQuotation.costs.discount = 0 ∧
    (Quotation.apply_bulk_discount exampleQuotation).costs.discount = 10 ∧
    (Quotation.apply_bulk_discount exampleQuotation).costs.tax = 9 := by
  refine ⟨?_, rfl, ?_, ?_⟩
  · intro hcontra
    have h10 : (Quotation.apply_bulk_discount exampleQuotation).costs.discount
        = 10 := by
      norm_num [Quotation.apply_bulk_discount, exampleQuotation]
    rw [hcontra] at h10
    norm_num [exampleQuotation] at h10
  · norm_num [Quotation.apply_bulk_discount, exampleQuotation]
  · norm_num [Quotation.apply_bulk_discount, exampleQuotation]

/-- C4 as amended: apply_bulk_discount never changes the descriptive
fields nor the material, finish, options and subtotal cost fields, and
when the order is below every tier (quantity under 5 and total letters
under 50) it leaves the whole record unchanged; but when a tier applies
it updates the discount, discount_percentage, tax and total fields of the
existing record in place rather than constructing a new Quotation, so
construction is not the only mutation point. -/
theorem claim_C4_amended (q : Quotation) :
    ({ q.apply_bulk_discount with costs := q.costs } = q) ∧
    (q.apply_bulk_discount).costs.material_cost = q.costs.material_cost ∧
    (q.apply_bulk_discount).costs.finish_cost = q.costs.finish_cost ∧
    (q.apply_bulk_discount).costs.options_cost = q.costs.options_cost ∧
    (q.apply_bulk_discount).costs.subtotal = q.costs.subtotal ∧
    (q.quantity < 5 → q.total_letters < 50 → q.apply_bulk_discount = q) := by
  simp only [Quotation.apply_bulk_discount]
  split_ifs with h1 h2 h3 h4 h5 h6
  · exact ⟨rfl, rfl, rfl, rfl, rfl, fun hq ht => by rcases h1 with h | h <;> omega⟩
  · exact ⟨rfl, rfl, rfl, rfl, rfl, fun hq ht => by rcases h1 with h | h <;> omega⟩
  · exact ⟨rfl, rfl, rfl, rfl, rfl, fun hq ht => by rcases h3 with h | h <;> omega⟩
  · omega
  · omega
  · exact ⟨rfl, rfl, rfl, rfl, rfl, fun hq ht => rfl⟩

/-- Witness for C4 as amended: below every tier, apply_bulk_discount is
the identity on the record. -/
theorem claim_C4_witness :
    Quotation.apply_bulk_discount smallQuotation = smallQuotation :=
  (claim_C4_amended smallQuotation).2.2.2.2.2 (by norm_num [smallQuotation])
    (by norm_num [smallQuotation])

/-- Reading back the serialized letter-color map restores it: every entry
to_dict writes carries both the name and the hex key. -/
theorem filterMap_colors (l : List (String × ColorInfo)) :
    (l.map (fun p =>
      (p.1, PortableColorInfo.mk (some p.2.name) (some p.2.hex)))).filterMap
      (fun p => match p.2.name, p.2.hex with
        | some n, some h => some (p.1, ColorInfo.mk n h)
        | _, _ => none) = l := by
  induction l with
  | nil => rfl
  | cons p rest ih => simp [List.filterMap_cons, ih]

/-- C5 counterexample: a constructed Quotation whose multi_color flag is
off but whose letter_colors field (a field with a declared default) is
non-empty does not survive the to_dict / from_dict round trip: to_dict
omits the letter_colors key, so from_dict resets the field to empty. -/
theorem claim_C5_counterexample :
    (Quotation.from_dict (Quotation.to_dict colorQuotation)
      0 "20240103000000").letter_colors ≠ colorQuotation.letter_colors := by
  have h1 : (Quotation.from_dict (Quotation.to_dict colorQuotation)
      0 "20240103000000").letter_colors = [] := rfl
  rw [h1]
  intro hcontra
  simp [colorQuotation] at hcontra

/-- C5 as amended: the round trip restores the defaulted fields
multi_color, color, color_hex, font, estimated_delivery_days and the
defaulted cost fields discount and discount_percentage for every
constructed Quotation, and restores letter_colors whenever multi_color is
on (when multi_color is off the field is reset to its empty default);
created_at and quote_id are regenerated by their default factories rather
than read back.  Deserializing a portable form with all keys missing
substitutes the documented defaults (discount 0, font "default",
estimated delivery 7 days) without error. -/
theorem claim_C5_amended (q : Quotation) (t : ℤ) (i : String) :
    (Quotation.from_dict (Quotation.to_dict q) t i).multi_color
      = q.multi_color ∧
    (Quotation.from_dict (Quotation.to_dict q) t i).color = q.color ∧
    (Quotation.from_dict (Quotation.to_dict q) t i).color_hex
      = q.color_hex ∧
    (Quotation.from_dict (Quotation.to_dict q) t i).font = q.font ∧
    (Quotation.from_dict (Quotation.to_dict q) t i).estimated_delivery_days
      = q.estimated_delivery_days ∧
    (Quotation.from_dict (Quotation.to_dict q) t i).costs.discount
      = q.costs.discount ∧
    (Quotation.from_dict (Quotation.to_dict q) t i).costs.discount_percentage
      = q.costs.discount_percentage ∧
    (q.multi_color = true →
      (Quotation.from_dict (Quotation.to_dict q) t i).letter_colors
        = q.letter_colors) ∧
    (Quotation.from_dict (Quotation.to_dict q) t i).created_at = t ∧
    (Quotation.from_dict (Quotation.to_dict q) t i).quote_id = i ∧
    (Quotation.from_dict {} t i).costs.discount = 0 ∧
    (Quotation.from_dict {} t i).font = "default" ∧
    (Quotation.from_dict {} t i).estimated_delivery_days = 7 := by
  refine ⟨rfl, rfl, rfl, rfl, rfl, rfl, rfl, ?_, rfl, rfl, rfl, rfl, rfl⟩
  intro hq
  simp only [Quotation.from_dict, Quotation.to_dict, Option.getD_some, hq,
    if_true, reduceIte]
  exact filterMap_colors q.letter_colors

/-- Witness for C5 as amended at a concrete multi-color quotation. -/
theorem claim_C5_witness :
    (Quotation.from_dict (Quotation.to_dict multiColorQuotation)
      7 "20240105000000").letter_colors = multiColorQuotation.letter_colors :=
  (claim_C5_amended multiColorQuotation 7 "20240105000000").2.2.2.2.2.2.2.1 rfl

/-- strip is right-trimming after left-trimming. -/
theorem strip_eq_rdropWhile (l : List Char) :
    strip l = List.rdropWhile isSpaceChar (List.dropWhile isSpaceChar l) := rfl

/-- Trimming only removes characters. -/
theorem strip_sublist (l : List Char) : List.Sublist (strip l) l := by
  rw [strip_eq_rdropWhile]
  exact (( List.rdropWhile_prefix isSpaceChar _).sublist).trans
    (List.dropWhile_suffix isSpaceChar).sublist

/-- A non-empty trimmed string does not start with whitespace. -/
theorem strip_cons_not_space (l : List Char) (c : Char) (rest : List Char)
    (hs : strip l = c :: rest) : isSpaceChar c = false := by
  obtain ⟨t, ht⟩ := List.rdropWhile_prefix isSpaceChar
    (List.dropWhile isSpaceChar l)
  have hstripl : strip l ++ t = List.dropWhile isSpaceChar l := by
    rw [strip_eq_rdropWhile]
    exact ht
  have hdw : List.dropWhile isSpaceChar l = c :: (rest ++ t) := by
    rw [← hstripl, hs]
    simp
  have hmatch := List.head?_dropWhile_not isSpaceChar l
  rw [hdw] at hmatch
  simpa using hmatch

/-- Left-trimming a trimmed string is the identity. -/
theorem lstrip_strip (l : List Char) :
    List.dropWhile isSpaceChar (strip l) = strip l := by
  cases hs : strip l with
  | nil => rfl
  | cons c rest =>
    have hhead := strip_cons_not_space l c rest hs
    simp [List.dropWhile_cons, hhead]

/-- Trimming is idempotent. -/
theorem strip_idem (l : List Char) : strip (strip l) = strip l := by
  rw [strip_eq_rdropWhile (strip l), lstrip_strip, strip_eq_rdropWhile l,
    List.rdropWhile_idempotent, ← strip_eq_rdropWhile]

/-- The tag-removal pass is the identity on text with no opening angle
bracket. -/
theorem stripTags_eq_self (l : List Char) (hl : '<' ∉ l) :
    stripTags l = l := by
  induction l with
  | nil => simp only [stripTags]
  | cons c rest ih =>
    have hc : ¬ (c = '<') := fun h => hl (by rw [h]; exact List.mem_cons_self _ _)
    have hrest : '<' ∉ rest := fun h => hl (List.mem_cons_of_mem _ h)
    simp only [stripTags]
    rw [if_neg hc, ih hrest]

/-- Characters of the trimmed string come from the string. -/
theorem mem_of_mem_strip {a : Char} {l : List Char} (h : a ∈ strip l) :
    a ∈ l :=
  (strip_sublist l).subset h

/-- C10: sanitize_text_input is idempotent: its output has no opening
angle bracket left (the bracket is outside the allow-list), every
remaining character is allow-listed, and the output is already trimmed,
so a second pass changes nothing. -/
theorem claim_C10_sanitize_idempotent (s : List Char) :
    sanitize_text_input (sanitize_text_input s) = sanitize_text_input s := by
  have hall : ∀ a ∈ strip ((stripTags s).filter isAllowedChar),
      isAllowedChar a = true := by
    intro a ha
    exact List.of_mem_filter (mem_of_mem_strip ha)
  have hlt : '<' ∉ strip ((stripTags s).filter isAllowedChar) := by
    intro hmem
    have h1 := hall '<' hmem
    have h2 : isAllowedChar '<' = false := by decide
    rw [h2] at h1
    exact Bool.false_ne_true h1
  show strip ((stripTags (strip ((stripTags s).filter isAllowedChar))).filter
      isAllowedChar) = strip ((stripTags s).filter isAllowedChar)
  rw [stripTags_eq_self _ hlt, List.filter_eq_self.mpr hall, strip_idem]

/-- Witness for C10 on a concrete string with a tag, disallowed
characters and surrounding whitespace. -/
theorem claim_C10_witness :
    sanitize_text_input (sanitize_text_input
      [' ', 'a', '<', 'b', '>', 'c', ';', ' ']) =
    sanitize_text_input [' ', 'a', '<', 'b', '>', 'c', ';', ' '] :=
  claim_C10_sanitize_idempotent [' ', 'a', '<', 'b', '>', 'c', ';', ' ']

end LetterQuote
